import Mathlib

/-!
Shallow embedding of the in-memory aggregation layer of the stock price
checker repository: validated records (DataContainer, StockQuote, Watcher),
the quote cache (StockManager), the watch registry (StockWatchers), and the
aggregation facade (Managers, ManagersResult, ManagersComparisonResult).

JavaScript numbers are modelled as rationals, JavaScript objects that the
code treats as string-keyed records are modelled as association lists that
preserve first-insertion order (matching the enumeration order of plain
JavaScript objects), and thrown exceptions are modelled with Except.
Asynchronous network access is modelled by passing the transport capability
(StockFetcher talking to the remote quote proxy) as an explicit function
argument, together with a counter of how many times it was invoked.
-/

namespace StockChecker

/-- Decidable equality on Except values, so that concrete runs of the
embedded operations can be checked by decide. -/
instance {ε α : Type} [DecidableEq ε] [DecidableEq α] : DecidableEq (Except ε α) :=
  fun a b =>
    match a, b with
    | .error e, .error f =>
      if h : e = f then .isTrue (congrArg Except.error h)
      else .isFalse (fun hc => h (Except.error.inj hc))
    | .ok x, .ok y =>
      if h : x = y then .isTrue (congrArg Except.ok h)
      else .isFalse (fun hc => h (Except.ok.inj hc))
    | .error _, .ok _ => .isFalse (fun hc => Except.noConfusion hc)
    | .ok _, .error _ => .isFalse (fun hc => Except.noConfusion hc)

/-- Error kinds thrown by the embedded code.  `zodError` stands for any
schema validation failure raised by the zod library; `referenceError`,
`typeError` and `syntaxError` stand for the eponymous JavaScript runtime
errors; `notFound` and `connection` are the transport error kinds. -/
inductive JsError where
  | zodError
  | referenceError
  | typeError
  | syntaxError
  | notFound
  | connection
deriving DecidableEq

/-- JavaScript values that appear as fields of the data records in this
code base: undefined, null, booleans, numbers (modelled as rationals),
strings, and Date instances (modelled by their epoch milliseconds). -/
inductive JsVal where
  | undefined
  | null
  | bool (b : Bool)
  | num (n : Rat)
  | str (s : String)
  | date (ms : Int)
deriving DecidableEq

/-- Property access `o[k]` on a record modelled as an association list:
the first binding wins, absence is JavaScript undefined (here none). -/
def jsGet {α : Type} (l : List (String × α)) (k : String) : Option α :=
  match l with
  | [] => none
  | (k', v) :: rest => if k' = k then some v else jsGet rest k

/-- Property assignment `o[k] = v` on a record modelled as an association
list: an existing key keeps its position and gets the new value, a new key
is appended, exactly like plain JavaScript object assignment. -/
def jsObjectSet {α : Type} (l : List (String × α)) (k : String) (v : α) : List (String × α) :=
  match l with
  | [] => [(k, v)]
  | (k', v') :: rest => if k' = k then (k, v) :: rest else (k', v') :: jsObjectSet rest k v

/-- Embedding of `Array.prototype.slice(start, stop)`: negative indices
count from the end, indices are clamped to the array bounds, and a missing
stop means the end of the array. -/
def jsSlice {α : Type} (l : List α) (start : Int) (stop : Option Int) : List α :=
  let len : Int := l.length
  let s : Int := if start < 0 then max (len + start) 0 else min start len
  let e : Int := match stop with
    | none => len
    | some t => if t < 0 then max (len + t) 0 else min t len
  (l.drop s.toNat).take (e - s).toNat

/-- The numeric-or-temporal test used by the comparison diff: a value
passes `typeof value` containing "num", or `value instanceof Date`, and is
read as a number (a Date reads as its epoch milliseconds, which is what
subtraction on Dates uses). Everything else yields none. -/
def jsNumOf (v : JsVal) : Option Rat :=
  match v with
  | .num n => some n
  | .date ms => some (ms : Rat)
  | _ => none

/-- The character class of the stock symbol pattern: an uppercase letter or
a dot. -/
def symbolChar (c : Char) : Bool :=
  (('A' ≤ c) && (c ≤ 'Z')) || (c = '.')

/-- Test for the regular expression of StockSybmolRegex in
src/scripts/data/stock.js: between one and six characters, each an
uppercase letter or a dot. -/
def symbolValid (s : String) : Bool :=
  (1 ≤ s.length) && (s.length ≤ 6) && s.data.all symbolChar

/-- Trimming of whitespace from both ends of a string, written over the
character list so that it is executable here; this models the `.trim()`
transform of the symbol schema. -/
def jsTrim (s : String) : String :=
  ⟨((s.data.dropWhile Char.isWhitespace).reverse.dropWhile Char.isWhitespace).reverse⟩

/-- Embedding of `StockSybmolRegex.parse` (stock.js line 9):
`z.coerce.string().trim().regex(/^[A-Z.]\x7b1,6\x7d$/)` applied to a string
input trims it and checks the pattern, throwing a zod error on mismatch. -/
def StockSybmolRegex.parse (s : String) : Except JsError String :=
  let t := jsTrim s
  if symbolValid t then .ok t else .error .zodError

/-- A StockQuote instance. Construction copies the raw property bag onto
the instance (see StockQuote.construct below), so the fields are kept here
as the bag itself; declared-but-absent fields read as undefined exactly as
jsGet already reports absence. -/
structure StockQuote where
  props : List (String × JsVal)
deriving DecidableEq

/-- Field read `quote[name]` on a StockQuote. -/
def StockQuote.get (q : StockQuote) (name : String) : JsVal :=
  (jsGet q.props name).getD .undefined

/-- Embedding of `new StockQuote(properties)` (stock.js lines 114 to 117)
together with the DataContainer constructor it calls (templates/data.js
lines 25 to 34). Traced behaviour of the source:
the DataContainer body runs before the StockQuote field initializers, so at
that point `this._schema` still holds the base schema
`z.object(\x7b\x7d).loose()`; with strict true the body assigns
`this._validate(properties)`, and the loose empty schema accepts every
object bag unchanged. Only afterwards do the StockQuote initializers set
the declared fields (to undefined) and install the real schema, and the
StockQuote body then does `Object.assign(this, properties)` with the raw,
never validated bag. Net effect: any object bag constructs successfully
and the instance carries the raw bag. -/
def StockQuote.construct (bag : List (String × JsVal)) : Except JsError StockQuote :=
  .ok { props := bag }

/-- One optional numeric field of the StockQuote schema:
`z.coerce.number().gte(0).nullable().optional()`. Absent and null pass,
a number passes when it is nonnegative, a boolean coerces to 0 or 1.
String-to-number and Date coercion of exotic inputs are not exercised by
any claim and are modelled as rejected. -/
def quoteNumFieldOk (v : JsVal) : Bool :=
  match v with
  | .undefined => true
  | .null => true
  | .num n => 0 ≤ n
  | .bool _ => true
  | _ => false

/-- One signed numeric field of the StockQuote schema (change and
changePercent): `z.coerce.number().nullable().optional()` without the
floor. -/
def quoteSignedFieldOk (v : JsVal) : Bool :=
  match v with
  | .undefined => true
  | .null => true
  | .num _ => true
  | .bool _ => true
  | _ => false

/-- The latestTime field of the StockQuote schema: a Date, an ISO string,
or any string that Date.parse accepts, nullable and optional. The string
branches are modelled as accepting (none of the claims exercise them). -/
def quoteTimeFieldOk (v : JsVal) : Bool :=
  match v with
  | .undefined => true
  | .null => true
  | .date _ => true
  | .str _ => true
  | _ => false

/-- The validity predicate declared by the StockQuote schema `_schema`
(stock.js lines 95 to 108): symbol required and matching the pattern, the
price and volume fields nonnegative when present, change and changePercent
numeric when present, latestTime temporal when present. This is what the
specification means by a valid Quote; the constructor was meant to enforce
it. -/
def validStockQuoteBag (bag : List (String × JsVal)) : Bool :=
  (match (jsGet bag "symbol").getD .undefined with
    | .str s => symbolValid (jsTrim s)
    | _ => false)
  && quoteSignedFieldOk ((jsGet bag "change").getD .undefined)
  && quoteSignedFieldOk ((jsGet bag "changePercent").getD .undefined)
  && quoteNumFieldOk ((jsGet bag "close").getD .undefined)
  && quoteNumFieldOk ((jsGet bag "high").getD .undefined)
  && quoteNumFieldOk ((jsGet bag "latestPrice").getD .undefined)
  && quoteTimeFieldOk ((jsGet bag "latestTime").getD .undefined)
  && quoteNumFieldOk ((jsGet bag "latestVolume").getD .undefined)
  && quoteNumFieldOk ((jsGet bag "low").getD .undefined)
  && quoteNumFieldOk ((jsGet bag "open").getD .undefined)
  && quoteNumFieldOk ((jsGet bag "previousClose").getD .undefined)
  && quoteNumFieldOk ((jsGet bag "volume").getD .undefined)

/-- A Watcher record: the append-only sequence of watched quotes and the
address it belongs to (src/scripts/data/watcher.js, fields at lines 465 and
473). Values of this type are what the registry list would hold. -/
structure Watcher where
  stock : List StockQuote
  address : String
deriving DecidableEq

/-- Embedding of `new Watcher(properties)` (watcher.js lines 496 to 499).
Traced behaviour of the source: the constructor body is

    super(properties)
    (strict || this._schema.safeParse().success) ? ... : false;

with no semicolon after the super call, so the parenthesised line is parsed
as an argument list applied to the value of `super(properties)`. Evaluating
that argument list resolves the identifier `strict`, which is bound nowhere
in the module (it is a parameter of DataContainer only), so the constructor
always throws a ReferenceError after the super call, whatever the input.
Construction of a Watcher therefore never succeeds. -/
def watcherNew (_stock : List StockQuote) (_address : String) : Except JsError Watcher :=
  .error .referenceError

/-- The stock filter argument of StockWatchers.search: undefined (no
filter), a StockQuote instance (matched with the object branch of the
filter), or a symbol string. -/
inductive StockFilter where
  | undefined
  | quote (q : StockQuote)
  | str (s : String)

/-- Truthiness of the filter argument, as tested by `if (!stock)` in the
search validate helper: undefined is falsy, an object is truthy, a string
is falsy exactly when empty. -/
def StockFilter.falsy : StockFilter → Bool
  | .undefined => true
  | .quote _ => false
  | .str s => s = ""

/-- Loose equality `added_stock.symbol == stock` between a symbol field
value and a string filter. Two strings compare as strings; the
number-to-string coercions of JavaScript loose equality are not exercised
by any claim (symbols in this code base are strings) and are modelled as
unequal. -/
def jsEqValStr (v : JsVal) (t : String) : Bool :=
  match v with
  | .str s => s = t
  | _ => false

/-- The `validate` helper of StockWatchers.search (part_002 lines 320 to
325): with a falsy filter every watcher passes; with a StockQuote filter a
watcher passes when its stock sequence contains that instance (the `==`
object comparison is modelled as equality of the embedded records); with a
string filter a watcher passes when some element of its stock sequence has
that symbol. -/
def stockMatches (stock : StockFilter) (v : Watcher) : Bool :=
  if stock.falsy then true
  else match stock with
    | .undefined => true
    | .quote q => !(v.stock.filter (fun a => a = q)).isEmpty
    | .str s => !(v.stock.filter (fun a => jsEqValStr (a.get "symbol") s)).isEmpty

/-- The address conjunct `(!(address) || (address == value.address))` of
the search filter: undefined or an empty string disables the filter,
otherwise the comparison is exact string equality. -/
def addressPasses (address : Option String) (v : Watcher) : Bool :=
  match address with
  | none => true
  | some a => (a = "") || (a = v.address)

/-- The watch registry: an ordered list of Watcher records, insertion
order preserved (part_002 line 287). The optional callback hooks of the
source are side-effect only and are never installed anywhere in this
repository, so they are not part of the state. -/
structure StockWatchers where
  watchers : List Watcher
deriving DecidableEq

/-- Embedding of StockWatchers.search (part_002 lines 310 to 333): filter
the registry by the address conjunct and the stock validate helper. The
zod line only coerces the address to a string and cannot fail. -/
def StockWatchers.search (w : StockWatchers) (stock : StockFilter) (address : Option String) : List Watcher :=
  w.watchers.filter (fun v => addressPasses address v && stockMatches stock v)

/-- Embedding of the `items` getter (part_002 lines 340 to 342): search
with both filters omitted, i.e. every watcher. -/
def StockWatchers.items (w : StockWatchers) : List Watcher :=
  w.search .undefined none

/-- Embedding of the `addresses` getter (part_002 lines 370 to 372). The
source reads

    return new Set(this.search.map((value) => value.address));

where `this.search` is the search method itself, not the result of calling
it; a function has no `map` property, so `this.search.map` is undefined and
invoking it throws a TypeError. The getter therefore never returns a set. -/
def StockWatchers.addresses (_w : StockWatchers) : Except JsError (List String) :=
  .error .typeError

/-- The `update` helper of StockWatchers.add (part_002 lines 422 to 431):
walk the registry, push the stock onto the first watcher whose address
matches, and report whether one was found. -/
def pushStock (ws : List Watcher) (address : String) (stock : StockQuote) : List Watcher × Bool :=
  match ws with
  | [] => ([], false)
  | v :: rest =>
    if v.address = address then
      ({ v with stock := v.stock ++ [stock] } :: rest, true)
    else
      let (rest', found) := pushStock rest address stock
      (v :: rest', found)

/-- Embedding of StockWatchers.add (part_002 lines 384 to 437). The
`z.instanceof(StockQuote)` parse always succeeds here because the argument
is a StockQuote by type. `find()` searches for the same stock and address;
when it is nonempty the short-circuit `!(find()) && append()` returns false
without touching the registry. Otherwise `append()` picks `update` when a
watcher with this address exists (searching with the stock filter
omitted), else `create`, which calls `new Watcher` and therefore always
throws (see watcherNew); the push after that call is never reached, so the
registry is unchanged on that path. -/
def StockWatchers.add (w : StockWatchers) (stock : StockQuote) (address : String) :
    Except JsError Bool × StockWatchers :=
  if (w.search (.quote stock) (some address)).length ≠ 0 then
    (.ok false, w)
  else if (w.search .undefined (some address)).length ≠ 0 then
    let (ws, found) := pushStock w.watchers address stock
    (.ok found, ⟨ws⟩)
  else
    match watcherNew [stock] address with
    | .error e => (.error e, w)
    | .ok wat => (.ok true, ⟨w.watchers ++ [wat]⟩)

/-- The `stocks` slot of a ManagersResult (part_001 lines 18 to 30): the
private field defaults to an empty object and the setter accepts either a
single StockQuote instance or an object mapping names to quotes. -/
inductive StocksVal where
  | emptyObj
  | quote (q : StockQuote)
  | map (entries : List (String × StockQuote))
deriving DecidableEq

/-- Reading `stocks[name]` as the numeric-or-temporal test of the diff
loop sees it: on a quote, the field of that name; on the default empty
object, undefined; on a map, the entry would be a StockQuote object or
undefined, neither a number nor a Date, so none in every case. -/
def StocksVal.numOrDate (sv : StocksVal) (name : String) : Option Rat :=
  match sv with
  | .quote q => jsNumOf (q.get name)
  | .emptyObj => none
  | .map _ => none

/-- Embedding of ManagersResult (part_001 lines 12 to 60): the stored
stocks value and the array of watchers. The constructor assigns `stocks`
only when the argument is truthy (an undefined quote leaves the empty
object default) and always assigns the watchers array (an array is truthy
even when empty); the zod checks cannot fail for these argument types. -/
structure ManagersResult where
  stocks : StocksVal
  watchers : List Watcher
deriving DecidableEq

/-- Embedding of ManagersComparisonResult (part_001 lines 68 to 133): the
data object mapping entry names to ManagersResult values, in insertion
order. -/
structure ManagersComparisonResult where
  data : List (String × ManagersResult)
deriving DecidableEq

/-- The pairing expression of the comparison getter,
`Object.values(this.data).slice(-(1 - index), index ? -index : undefined)[0]`
(part_001 lines 94 and 106 to 108): slice the values with start index - 1
(as an integer) and with the stop argument omitted when index is 0 and
-index otherwise, then take the first element of the slice; an empty slice
yields undefined (none). -/
def wrapPick (values : List ManagersResult) (index : Nat) : Option ManagersResult :=
  (jsSlice values ((index : Int) - 1) (if index = 0 then none else some (-(index : Int)))).head?

/-- The loop of the `popular` helper of the comparison getter (part_001
lines 91 to 97), one iteration per index of the data object: look up the
paired entry with wrapPick and store, under the key at this index, the
difference between the watcher count of the paired entry and the watcher
count of this entry. Reading `.watchers` off an undefined paired entry (an
empty slice) would throw a TypeError. -/
def popularGo (keys : List String) (values : List ManagersResult) :
    List Nat → List (String × Int) → Except JsError (List (String × Int))
  | [], acc => .ok acc
  | i :: rest, acc =>
    match wrapPick values i, values[i]?, keys[i]? with
    | some paired, some cur, some key =>
      popularGo keys values rest
        (jsObjectSet acc key ((paired.watchers.length : Int) - (cur.watchers.length : Int)))
    | _, _, _ => .error .typeError

/-- The `popular` helper of the comparison getter: the watcher-count diff
object, keyed by entry name. -/
def ManagersComparisonResult.popular (r : ManagersComparisonResult) : Except JsError (List (String × Int)) :=
  popularGo (r.data.map Prod.fst) (r.data.map Prod.snd) (List.range r.data.length) []

/-- The inner field loop of the `differences` helper (part_001 lines 102
to 115). The source iterates `Object.keys(this.names)` where `this.names`
is the array of entry names, so the iterated strings are the array indices
"0", "1", and so on, not stock field names. For each such string it keeps
the pair exactly when both this entry and the paired entry hold a numeric
or Date value under that key, pushing the difference paired minus this. -/
def diffFields (cur paired : ManagersResult) (fieldNames : List String) : List (String × Rat) :=
  fieldNames.foldl (fun cs name =>
    match cur.stocks.numOrDate name, paired.stocks.numOrDate name with
    | some a, some b => cs ++ [(name, b - a)]
    | _, _ => cs) []

/-- The outer loop of the `differences` helper (part_001 lines 99 to 118),
one iteration per index of the data object, storing the field diff object
of this entry against its wrapPick paired entry. -/
def differencesGo (keys : List String) (values : List ManagersResult) (fieldNames : List String) :
    List Nat → List (String × List (String × Rat)) →
    Except JsError (List (String × List (String × Rat)))
  | [], acc => .ok acc
  | i :: rest, acc =>
    match wrapPick values i, values[i]?, keys[i]? with
    | some paired, some cur, some key =>
      differencesGo keys values fieldNames rest
        (jsObjectSet acc key (diffFields cur paired fieldNames))
    | _, _, _ => .error .typeError

/-- The `differences` helper of the comparison getter: per entry name, the
object of per-field numeric diffs. The iterated field names are
`Object.keys(this.names)`, i.e. the decimal strings of the indices of the
names array (see diffFields). -/
def ManagersComparisonResult.differences (r : ManagersComparisonResult) :
    Except JsError (List (String × List (String × Rat))) :=
  differencesGo (r.data.map Prod.fst) (r.data.map Prod.snd)
    ((List.range r.data.length).map (fun n => toString n))
    (List.range r.data.length) []

/-- The value of the comparison getter: the watchers diff object and the
stocks diff object. -/
structure Comparison where
  watchers : List (String × Int)
  stocks : List (String × List (String × Rat))
deriving DecidableEq

/-- Embedding of the `comparison` getter of ManagersComparisonResult
(part_001 lines 90 to 124): evaluate `popular()` and `differences()` and
return both under the keys watchers and stocks. -/
def ManagersComparisonResult.comparison (r : ManagersComparisonResult) : Except JsError Comparison := do
  let w ← r.popular
  let s ← r.differences
  return ⟨w, s⟩

/-- The optional lifecycle callbacks of StockManager (part_000 lines 24 to
38). Nothing in this repository ever installs any of them (Managers
constructs a bare StockManager), so the live system always has all three
absent; they are modelled as pure capabilities. -/
structure StockCallbacks where
  fetch : Option (String → Except JsError (Option StockQuote))
  downloaded : Option (Option StockQuote → Except JsError Unit)
  deletion : Option (String → Bool)

/-- The callbacks object in its initial (and, in this repository, only)
state: the empty object, no hooks installed. -/
def StockCallbacks.empty : StockCallbacks :=
  { fetch := none, downloaded := none, deletion := none }

/-- The quote cache (part_000): the private symbol-to-quote map and the
callbacks object. -/
structure StockManager where
  stocks : List (String × StockQuote)
  callbacks : StockCallbacks

/-- A StockManager as `new StockManager()` builds it: empty cache, empty
callbacks. -/
def StockManager.init : StockManager :=
  { stocks := [], callbacks := .empty }

/-- Embedding of StockManager.select (part_000 lines 83 to 85): the cached
quote for the symbol, undefined (none) when absent. -/
def StockManager.select (m : StockManager) (symbol : String) : Option StockQuote :=
  jsGet m.stocks symbol

/-- The StockFetcher leg of the miss path of StockManager.fetch (part_000
lines 67 to 71): `fetcher.symbol = symbol` runs the symbol setter, which
stores undefined for a falsy (empty) symbol and otherwise stores
StockSybmolRegex.parse of it, throwing on mismatch before any network
access; `await fetcher.fetch()` then evaluates the source getter, which
parses the stored symbol again (parsing undefined fails, since undefined
coerces to the string "undefined", which does not match the pattern) and
performs the network call; on success the result is stored in the cache
keyed by the requested symbol exactly as passed in. -/
def fetchMissStore (transport : String → Except JsError StockQuote)
    (m : StockManager) (symbol : String) :
    Except JsError Unit × StockManager × Nat :=
  if symbol = "" then (.error .zodError, m, 0)
  else
    match StockSybmolRegex.parse symbol with
    | .error e => (.error e, m, 0)
    | .ok stored =>
      match StockSybmolRegex.parse stored with
      | .error e => (.error e, m, 0)
      | .ok s' =>
        match transport s' with
        | .error e => (.error e, m, 1)
        | .ok q => (.ok (), { m with stocks := jsObjectSet m.stocks symbol q }, 1)

/-- The tail of StockManager.fetch (part_000 lines 73 to 74): invoke the
optional downloaded hook on the cache entry of the symbol, then return
`select(symbol)`. -/
def fetchFinish (m' : StockManager) (symbol : String) (n : Nat) :
    Except JsError (Option StockQuote) × StockManager × Nat :=
  match m'.callbacks.downloaded with
  | some d =>
    match d (m'.select symbol) with
    | .error e => (.error e, m', n)
    | .ok _ => (.ok (m'.select symbol), m', n)
  | none => (.ok (m'.select symbol), m', n)

/-- Embedding of StockManager.fetch (part_000 lines 61 to 75), with the
transport capability (the network side of StockFetcher.fetch) passed
explicitly and a count of how many times it was invoked during the call.
The returned triple is the call result, the cache state after the call
(mutations before a throw persist, as in the source), and that count.

Traced behaviour of the source: a symbol already among the cache keys
returns the cached quote at once, with no transport access and no
callback. On a miss, `callbacks.fetch` is consulted when installed; when
the result is falsy the fetchMissStore leg runs. Note that when
`callbacks.fetch` returns a truthy quote the code never stores it, so the
final `select(symbol)` returns undefined on that path. After the store the
downloaded hook runs when installed and the call returns select of the
symbol (fetchFinish). -/
def StockManager.fetch (transport : String → Except JsError StockQuote)
    (m : StockManager) (symbol : String) :
    Except JsError (Option StockQuote) × StockManager × Nat :=
  if (jsGet m.stocks symbol).isSome then
    (.ok (m.select symbol), m, 0)
  else
    match (match m.callbacks.fetch with
           | some f => f symbol
           | none => .ok none : Except JsError (Option StockQuote)) with
    | .error e => (.error e, m, 0)
    | .ok fetched =>
      match (if fetched.isNone then fetchMissStore transport m symbol
             else (.ok (), m, 0)) with
      | (.error e, m', n) => (.error e, m', n)
      | (.ok _, m', n) => fetchFinish m' symbol n

/-- The aggregation facade (part_001 lines 139 to 214): a StockManager and
a StockWatchers. -/
structure Managers where
  stocks : StockManager
  watchers : StockWatchers

/-- A Managers as its constructor builds it: fresh StockManager and
StockWatchers. -/
def Managers.init : Managers :=
  { stocks := .init, watchers := ⟨[]⟩ }

/-- Embedding of Managers.read (part_001 lines 175 to 179): fetch the
quote, then build `new ManagersResult(quote, this.watchers.search(quote))`.
A defined quote becomes the stocks value and the stock filter of the
search; an undefined quote leaves the empty default and disables the
filter. -/
def Managers.read (transport : String → Except JsError StockQuote)
    (M : Managers) (symbol : String) :
    Except JsError ManagersResult × Managers × Nat :=
  match StockManager.fetch transport M.stocks symbol with
  | (.error e, sm', n) => (.error e, { M with stocks := sm' }, n)
  | (.ok q?, sm', n) =>
    let M' : Managers := { M with stocks := sm' }
    let res : ManagersResult :=
      { stocks := match q? with | some q => .quote q | none => .emptyObj
        watchers := M'.watchers.search (match q? with | some q => .quote q | none => .undefined) none }
    (.ok res, M', n)

/-- The loop of Managers.compare (part_001 lines 206 to 213): read each of
the first two symbols and collect the name-result pairs. The source issues
the two reads through Promise.all; with the single-threaded cache and
distinct symbols the interleaving is equivalent to reading in order, which
is how it is modelled here (the duplicate-fetch race of two reads of the
same uncached symbol is not exercised by any claim). -/
def Managers.compareLoop (transport : String → Except JsError StockQuote) :
    List String → Managers → List (String × ManagersResult) → Nat →
    Except JsError (List (String × ManagersResult)) × Managers × Nat
  | [], M, acc, n => (.ok acc, M, n)
  | s :: rest, M, acc, n =>
    match Managers.read transport M s with
    | (.error e, M', k) => (.error e, M', n + k)
    | (.ok r, M', k) => Managers.compareLoop transport rest M' (acc ++ [(s, r)]) (n + k)

/-- Embedding of Managers.compare: take the first two symbols, read each,
and build the ManagersComparisonResult from the entries
(`Object.fromEntries` keeps the first position of a duplicate key and its
last value, which is what jsObjectSet does). -/
def Managers.compare (transport : String → Except JsError StockQuote)
    (M : Managers) (symbols : List String) :
    Except JsError ManagersComparisonResult × Managers × Nat :=
  match Managers.compareLoop transport (symbols.take 2) M [] 0 with
  | (.error e, M', n) => (.error e, M', n)
  | (.ok entries, M', n) =>
    (.ok ⟨entries.foldl (fun acc kv => jsObjectSet acc kv.1 kv.2) []⟩, M', n)

/-- The symbol argument of Managers.watch: a bare string or an array of
strings, distinguished by `Array.isArray`. -/
inductive SymbolsArg where
  | str (s : String)
  | arr (l : List String)

/-- The value Managers.watch resolves with: a ManagersResult from the
final read, or a ManagersComparisonResult from the final compare. -/
inductive WatchOutcome where
  | result (r : ManagersResult)
  | comparison (c : ManagersComparisonResult)
deriving DecidableEq

/-- The registration loop of Managers.watch (part_001 lines 193 to 196):
for each name in input order, await a read (a failing read aborts the
whole call with that error, keeping the state reached so far), then pass
`initial.stocks` to StockWatchers.add; the `z.instanceof(StockQuote)`
check inside add throws a zod error unless that value is a single quote,
and add itself can throw (see StockWatchers.add). -/
def Managers.watchLoop (transport : String → Except JsError StockQuote) (address : String) :
    List String → Managers → Nat → Except JsError Unit × Managers × Nat
  | [], M, n => (.ok (), M, n)
  | name :: rest, M, n =>
    match Managers.read transport M name with
    | (.error e, M', k) => (.error e, M', n + k)
    | (.ok initial, M', k) =>
      match initial.stocks with
      | .quote q =>
        match M'.watchers.add q address with
        | (.error e, w') => (.error e, { M' with watchers := w' }, n + k)
        | (.ok _, w') => Managers.watchLoop transport address rest { M' with watchers := w' } (n + k)
      | _ => (.error .zodError, M', n + k)

/-- Embedding of Managers.watch (part_001 lines 190 to 199): normalize a
bare symbol into a one-element list, run the registration loop, then
answer with `this[Array.isArray(symbol) ? "compare" : "read"](symbol)` —
the dispatch is on whether the original argument was an array, and the
original argument is what is passed on. -/
def Managers.watch (transport : String → Except JsError StockQuote)
    (M : Managers) (symbol : SymbolsArg) (address : String) :
    Except JsError WatchOutcome × Managers × Nat :=
  let names := match symbol with | .str s => [s] | .arr l => l
  match Managers.watchLoop transport address names M 0 with
  | (.error e, M', n) => (.error e, M', n)
  | (.ok _, M', n) =>
    match symbol with
    | .arr l =>
      match Managers.compare transport M' l with
      | (.error e, M'', k) => (.error e, M'', n + k)
      | (.ok c, M'', k) => (.ok (.comparison c), M'', n + k)
    | .str s =>
      match Managers.read transport M' s with
      | (.error e, M'', k) => (.error e, M'', n + k)
      | (.ok r, M'', k) => (.ok (.result r), M'', n + k)

/-! Concrete fixtures used by the claim theorems and witnesses. The quote
values stand for transport responses; the watcher values below exist at the
type level to exercise the comparison getter, which is generic in its
entries (the registry itself can never produce one, see watcherNew). -/

/-- A quote for the symbol DIS with latestPrice 100. -/
def qDIS : StockQuote := ⟨[("symbol", .str "DIS"), ("latestPrice", .num 100)]⟩

/-- A quote for the symbol NKE with latestPrice 50. -/
def qNKE : StockQuote := ⟨[("symbol", .str "NKE"), ("latestPrice", .num 50)]⟩

/-- A transport capability serving qDIS and qNKE and failing on anything
else. -/
def fixedTransport : String → Except JsError StockQuote :=
  fun s => if s = "DIS" then .ok qDIS else if s = "NKE" then .ok qNKE else .error .notFound

/-- A transport capability that answers every request with qNKE, used to
show that the cache key is the requested symbol and not the symbol echoed
by the transport. -/
def echoTransport : String → Except JsError StockQuote :=
  fun _ => .ok qNKE

/-- A watcher record of address 1.2.3.4 holding qDIS. -/
def watcherDIS : Watcher := ⟨[qDIS], "1.2.3.4"⟩

/-- A comparison entry with one watcher. -/
def entryDIS : ManagersResult := ⟨.quote qDIS, [watcherDIS]⟩

/-- A comparison entry with three watchers. -/
def entryNKE : ManagersResult := ⟨.quote qNKE, [watcherDIS, watcherDIS, watcherDIS]⟩

/-- A Managers state whose cache already holds qDIS under the key DIS and
whose registry is empty. -/
def cachedManagers : Managers := ⟨⟨[("DIS", qDIS)], .empty⟩, ⟨[]⟩⟩

/-- A Managers state whose cache holds qDIS and whose registry already
holds a watcher for the pair (qDIS, 1.2.3.4), making a repeated add of
that pair a no-op, so that a watch call over it can run to completion. -/
def seededManagers : Managers := ⟨⟨[("DIS", qDIS)], .empty⟩, ⟨[watcherDIS]⟩⟩

/-- The run of Managers.watch over the two symbols DIS and NKE from the
initial state. -/
def watchTwoSymbolsRun : Except JsError WatchOutcome × Managers × Nat :=
  Managers.watch fixedTransport Managers.init (.arr ["DIS", "NKE"]) "1.2.3.4"

/-- The run of Managers.watch over the bare symbol DIS from the initial
state. -/
def watchBareSymbolRun : Except JsError WatchOutcome × Managers × Nat :=
  Managers.watch fixedTransport Managers.init (.str "DIS") "1.2.3.4"

/-- The run of Managers.watch over the one-element array containing DIS
from the initial state. -/
def watchOneElementArrayRun : Except JsError WatchOutcome × Managers × Nat :=
  Managers.watch fixedTransport Managers.init (.arr ["DIS"]) "1.2.3.4"

/-- The run of Managers.watch over the one-element array containing DIS
from the seeded state, where the registration is the documented duplicate
no-op and the call therefore completes. -/
def watchSeededArrayRun : Except JsError WatchOutcome × Managers × Nat :=
  Managers.watch fixedTransport seededManagers (.arr ["DIS"]) "1.2.3.4"

/-! Helper lemmas about the cache. -/

/-- Reading back the key just assigned yields the assigned value. -/
theorem jsGet_jsObjectSet_self {α : Type} (l : List (String × α)) (k : String) (v : α) :
    jsGet (jsObjectSet l k v) k = some v := by
  induction l with
  | nil => simp [jsObjectSet, jsGet]
  | cons hd tl ih =>
    obtain ⟨k', v'⟩ := hd
    by_cases hk : k' = k <;> simp [jsObjectSet, jsGet, hk, ih]

/-- The cache-hit path of StockManager.fetch: a cached symbol is answered
from the cache with no transport invocation and no state change. -/
theorem fetch_hit (transport : String → Except JsError StockQuote) (m : StockManager)
    (S : String) (q : StockQuote) (h : jsGet m.stocks S = some q) :
    StockManager.fetch transport m S = (.ok (some q), m, 0) := by
  simp [StockManager.fetch, StockManager.select, h]

/-- Inversion of a successful StockManager.fetch with no fetch callback
installed: the result is a defined quote, that quote is in the cache of
the final state under the requested key, the callbacks are untouched, and
the transport was invoked at most once. -/
theorem fetch_ok_cached (transport : String → Except JsError StockQuote) (m : StockManager)
    (S : String) (hcb : m.callbacks.fetch = none)
    (q? : Option StockQuote) (m₁ : StockManager) (n₁ : Nat)
    (h : StockManager.fetch transport m S = (.ok q?, m₁, n₁)) :
    ∃ q, q? = some q ∧ jsGet m₁.stocks S = some q ∧ m₁.callbacks = m.callbacks ∧ n₁ ≤ 1 := by
  by_cases hhit : (jsGet m.stocks S).isSome
  · obtain ⟨q, hq⟩ := Option.isSome_iff_exists.mp hhit
    rw [fetch_hit transport m S q hq] at h
    simp only [Prod.mk.injEq, Except.ok.injEq] at h
    obtain ⟨h1, h2, h3⟩ := h
    exact ⟨q, h1.symm, by rw [← h2]; exact hq, by rw [← h2], by omega⟩
  · rw [StockManager.fetch, if_neg hhit, hcb] at h
    simp only [Option.isNone_none, if_true] at h
    rw [fetchMissStore] at h
    by_cases hS : S = ""
    · rw [if_pos hS] at h
      simp at h
    · rw [if_neg hS] at h
      rcases hp : StockSybmolRegex.parse S with e | t
      · simp only [hp] at h; simp at h
      · simp only [hp] at h
        rcases hp2 : StockSybmolRegex.parse t with e | s'
        · simp only [hp2] at h; simp at h
        · simp only [hp2] at h
          rcases ht : transport s' with e | q
          · simp only [ht] at h; simp at h
          · simp only [ht] at h
            rw [fetchFinish] at h
            rcases hd : m.callbacks.downloaded with _ | d
            · simp only [hd, StockManager.select, Prod.mk.injEq, Except.ok.injEq] at h
              obtain ⟨h1, h2, h3⟩ := h
              refine ⟨q, ?_, ?_, ?_, by omega⟩
              · rw [← h1, jsGet_jsObjectSet_self]
              · rw [← h2]; exact jsGet_jsObjectSet_self ..
              · rw [← h2]
            · simp only [hd] at h
              rcases hdq : d ((⟨jsObjectSet m.stocks S q, m.callbacks⟩ : StockManager).select S) with e | u
              · simp only [StockManager.select] at hdq
                simp only [hdq, StockManager.select] at h
                simp at h
              · simp only [StockManager.select] at hdq
                simp only [hdq, StockManager.select, Prod.mk.injEq, Except.ok.injEq] at h
                obtain ⟨h1, h2, h3⟩ := h
                refine ⟨q, ?_, ?_, ?_, by omega⟩
                · rw [← h1, jsGet_jsObjectSet_self]
                · rw [← h2]; exact jsGet_jsObjectSet_self ..
                · rw [← h2]

/-- The cache-hit path of Managers.read: with the quote cached, read
answers from the cache, leaves the state unchanged and never touches the
transport. -/
theorem read_hit (transport : String → Except JsError StockQuote) (M : Managers)
    (S : String) (q : StockQuote) (h : jsGet M.stocks.stocks S = some q) :
    Managers.read transport M S
      = (.ok ⟨.quote q, M.watchers.search (.quote q) none⟩, M, 0) := by
  rw [Managers.read, fetch_hit transport M.stocks S q h]

/-! Claim theorems. -/

/-- C1: the claim states that calling StockWatchers.add twice with the
same quote and address leaves exactly one matching entry (search of the
pair has length one) and that the second call is a no-op. On the code the
very first add of a fresh pair throws a ReferenceError out of the Watcher
constructor (see watcherNew) before the new entry is pushed, so the
registry stays empty, the second call behaves identically, and the search
finds zero matching entries, not one. This theorem evaluates the code at
the failing input: an empty registry, the quote qDIS and the address
1.2.3.4. -/
theorem add_same_pair_first_call_throws :
    StockWatchers.add ⟨[]⟩ qDIS "1.2.3.4" = (.error .referenceError, ⟨[]⟩)
    ∧ (StockWatchers.search ⟨[]⟩ (.quote qDIS) (some "1.2.3.4")).length = 0 := by
  decide

/-- C2: for a comparison over exactly two entries, first named A and then
B, with watcher counts wA and wB, the watchers component of the comparison
getter is the object mapping A to wB - wA and B to wA - wB: the two diffs
are equal and opposite. -/
theorem compare_two_entries_watcher_diffs_equal_opposite
    (A B : String) (eA eB : ManagersResult) (h : A ≠ B) :
    (ManagersComparisonResult.comparison ⟨[(A, eA), (B, eB)]⟩).map Comparison.watchers
      = .ok [(A, (eB.watchers.length : Int) - (eA.watchers.length : Int)),
             (B, (eA.watchers.length : Int) - (eB.watchers.length : Int))] := by
  simp [ManagersComparisonResult.comparison, ManagersComparisonResult.popular,
    ManagersComparisonResult.differences, popularGo, differencesGo, wrapPick, jsSlice,
    jsObjectSet, List.range_succ, h, Except.map, Except.bind, bind, pure, Except.pure]

/-- Witness for C2 at the concrete entries entryDIS (one watcher) and
entryNKE (three watchers): the diffs are 2 and -2. -/
theorem compare_two_entries_watcher_diffs_equal_opposite_witness :
    (("DIS" : String) ≠ "NKE")
    ∧ (ManagersComparisonResult.comparison ⟨[("DIS", entryDIS), ("NKE", entryNKE)]⟩).map
        Comparison.watchers
      = .ok [("DIS", (entryNKE.watchers.length : Int) - (entryDIS.watchers.length : Int)),
             ("NKE", (entryDIS.watchers.length : Int) - (entryNKE.watchers.length : Int))]
    ∧ (entryNKE.watchers.length : Int) - (entryDIS.watchers.length : Int) = 2 :=
  ⟨by decide,
   compare_two_entries_watcher_diffs_equal_opposite "DIS" "NKE" entryDIS entryNKE (by decide),
   by decide⟩

/-- C3: a symbol already present in the cache is answered by
StockManager.fetch from the cache with no transport invocation and no
state change; consequently two Managers.read calls of the same symbol with
nothing in between return the identical result on the second call, the
second call costs no transport invocation, and across the two calls the
transport is invoked at most once (the count of the first call is at most
one). The second part is stated for a manager with no fetch callback
installed, which is the only configuration this repository ever builds. -/
theorem fetch_cache_hit_and_read_idempotent
    (transport : String → Except JsError StockQuote) (M : Managers) (S : String) :
    (∀ q, jsGet M.stocks.stocks S = some q →
      StockManager.fetch transport M.stocks S = (.ok (some q), M.stocks, 0))
    ∧ (M.stocks.callbacks.fetch = none →
      ∀ res, (Managers.read transport M S).1 = .ok res →
        (Managers.read transport M S).2.2 ≤ 1
        ∧ Managers.read transport (Managers.read transport M S).2.1 S
            = (.ok res, (Managers.read transport M S).2.1, 0)) := by
  constructor
  · exact fun q h => fetch_hit transport M.stocks S q h
  · intro hcb res h1
    rcases hf : StockManager.fetch transport M.stocks S with ⟨r, sm', n⟩
    rcases r with e | q?
    · rw [Managers.read, hf] at h1
      simp at h1
    · obtain ⟨q, hq, hq1, hq2, hq3⟩ := fetch_ok_cached transport M.stocks S hcb q? sm' n hf
      subst hq
      have hread : Managers.read transport M S
          = (.ok ⟨.quote q, M.watchers.search (.quote q) none⟩, { M with stocks := sm' }, n) := by
        rw [Managers.read, hf]
      rw [hread] at h1
      simp only [Except.ok.injEq] at h1
      subst h1
      have hsecond := read_hit transport { M with stocks := sm' } S q hq1
      rw [hread]
      exact ⟨hq3, hsecond⟩

/-- Witness for C3: a cache hit on the cachedManagers state, and the
composition of two reads of DIS from the initial state, the first of which
fetched once. -/
theorem fetch_cache_hit_and_read_idempotent_witness :
    StockManager.fetch fixedTransport cachedManagers.stocks "DIS"
      = (.ok (some qDIS), cachedManagers.stocks, 0)
    ∧ ((Managers.read fixedTransport Managers.init "DIS").2.2 ≤ 1
      ∧ Managers.read fixedTransport (Managers.read fixedTransport Managers.init "DIS").2.1 "DIS"
          = (.ok ⟨.quote qDIS, []⟩, (Managers.read fixedTransport Managers.init "DIS").2.1, 0)) :=
  ⟨(fetch_cache_hit_and_read_idempotent fixedTransport cachedManagers "DIS").1 qDIS rfl,
   (fetch_cache_hit_and_read_idempotent fixedTransport Managers.init "DIS").2 rfl
     ⟨.quote qDIS, []⟩ (by decide)⟩

/-- C4: the claim states that for a two-entry comparison whose quotes both
carry a numeric latestPrice, the stocks component maps the first entry
name to an object with latestPrice equal to the difference of the paired
prices. On the code the field loop iterates `Object.keys(this.names)`,
which are the indices "0" and "1" of the names array rather than stock
field names, and a StockQuote has no such properties, so every field is
omitted and each diff object is empty. This theorem evaluates the code at
the failing input: entries for DIS (latestPrice 100) and NKE (latestPrice
50), whose field diff objects both come out empty instead of carrying
latestPrice. -/
theorem comparison_field_diffs_always_empty :
    ManagersComparisonResult.differences ⟨[("DIS", entryDIS), ("NKE", entryNKE)]⟩
      = .ok [("DIS", []), ("NKE", [])]
    ∧ (ManagersComparisonResult.comparison ⟨[("DIS", entryDIS), ("NKE", entryNKE)]⟩).map
        Comparison.stocks
      = .ok [("DIS", []), ("NKE", [])]
    ∧ entryDIS.stocks.numOrDate "latestPrice" = some 100
    ∧ entryNKE.stocks.numOrDate "latestPrice" = some 50 := by
  decide

/-- C5: the claim states that registering the same address for DIS and
then NKE yields one entry with a two-element stock sequence and an
addresses view of size one. On the code the first registration throws a
ReferenceError out of the Watcher constructor (see watcherNew) and leaves
the registry empty, the second registration behaves identically, and the
addresses getter itself throws a TypeError because it calls `map` on the
search method instead of on its result. This theorem evaluates the code at
the failing inputs. -/
theorem watch_two_symbols_registration_and_addresses_throw :
    StockWatchers.add ⟨[]⟩ qDIS "1.2.3.4" = (.error .referenceError, ⟨[]⟩)
    ∧ StockWatchers.add ⟨[]⟩ qNKE "1.2.3.4" = (.error .referenceError, ⟨[]⟩)
    ∧ (StockWatchers.items ⟨[]⟩).length = 0
    ∧ StockWatchers.addresses ⟨[]⟩ = .error .typeError := by
  decide

/-- C6: the claim states that construction of a StockQuote or a Watcher
validates the property bag and throws a ValidationError on any violation,
never yielding an unvalidated instance. On the code StockQuote
construction succeeds for every object bag, because validation runs
against the base loose empty schema (the subclass schema field is not yet
initialized during the super call) and the raw bag is then assigned
unvalidated; and Watcher construction always throws a ReferenceError, even
on valid input, instead of a ValidationError. This theorem evaluates the
code at a bag whose symbol ZZZZZZZ (seven letters) violates the declared
pattern yet constructs successfully and is carried verbatim, and at a
valid Watcher input that still throws. -/
theorem construction_never_validates :
    StockQuote.construct [("symbol", .str "ZZZZZZZ")] = .ok ⟨[("symbol", .str "ZZZZZZZ")]⟩
    ∧ validStockQuoteBag [("symbol", .str "ZZZZZZZ")] = false
    ∧ (StockQuote.construct [("symbol", .str "ZZZZZZZ")]).map (fun q => q.get "symbol")
        = .ok (.str "ZZZZZZZ")
    ∧ validStockQuoteBag qDIS.props = true
    ∧ watcherNew [qDIS] "1.2.3.4" = .error .referenceError := by
  decide

/-- C7: the claim states that a multi-symbol watch processes symbols
strictly in input order and that when the read of symbol k fails the
operation aborts with that error while the watchers registered for the
earlier symbols remain registered. On the code the registration of the
very first symbol already throws a ReferenceError out of the Watcher
constructor (see watcherNew), so the call aborts with an error that is not
a read failure, no watcher is ever registered, and the later symbols are
never read. This theorem evaluates the code at the failing input: a watch
of DIS then NKE from the initial state with a transport that serves both
symbols; the call ends with the ReferenceError after exactly one
transport invocation (only DIS was read, in order), with DIS cached and
the registry still empty. -/
theorem multi_watch_aborts_at_first_registration :
    watchTwoSymbolsRun.1 = .error .referenceError
    ∧ watchTwoSymbolsRun.2.1.watchers = ⟨[]⟩
    ∧ watchTwoSymbolsRun.2.1.stocks.stocks = [("DIS", qDIS)]
    ∧ watchTwoSymbolsRun.2.2 = 1 := by
  decide

/-- C8: the claim states that watch returns a ComparisonResult exactly
when more than one symbol was supplied and otherwise (including a
one-element array) a re-read SnapshotResult. On the code a watch from any
reachable state throws a ReferenceError at the first registration (see
watcherNew) and returns nothing at all; and the final dispatch is on
`Array.isArray(symbol)`, so even with the registration step a no-op (the
seeded state below) a one-element array is answered by compare, producing
a one-entry ComparisonResult rather than a SnapshotResult. This theorem
evaluates the code at a bare-symbol watch and a one-element-array watch
from the initial state (both throw), and at a one-element-array watch from
the seeded state, which completes and returns a comparison. -/
theorem watch_never_returns_and_one_element_array_goes_to_compare :
    watchBareSymbolRun.1 = .error .referenceError
    ∧ watchOneElementArrayRun.1 = .error .referenceError
    ∧ watchSeededArrayRun.1
        = .ok (.comparison ⟨[("DIS", ⟨.quote qDIS, [watcherDIS]⟩)]⟩)
    ∧ watchSeededArrayRun.2.2 = 0 := by
  decide

/-- C9: on a cache miss with no fetch callback installed, a successful
StockManager.fetch invokes the transport with the (twice) parsed symbol
and stores the fetched quote keyed by the requested symbol exactly as
passed in, not by the symbol echoed inside the quote (the quote q below is
arbitrary and unconstrained), and returns that stored quote. -/
theorem fetch_miss_stores_by_requested_key
    (transport : String → Except JsError StockQuote) (m : StockManager)
    (symbol s₁ s₂ : String) (q : StockQuote)
    (hmiss : jsGet m.stocks symbol = none)
    (hcb : m.callbacks.fetch = none)
    (hdl : m.callbacks.downloaded = none)
    (hne : ¬ symbol = "")
    (hp1 : StockSybmolRegex.parse symbol = .ok s₁)
    (hp2 : StockSybmolRegex.parse s₁ = .ok s₂)
    (ht : transport s₂ = .ok q) :
    StockManager.fetch transport m symbol
      = (.ok (some q), { m with stocks := jsObjectSet m.stocks symbol q }, 1)
    ∧ jsGet (jsObjectSet m.stocks symbol q) symbol = some q := by
  constructor
  · rw [StockManager.fetch, if_neg (by simp [hmiss]), hcb]
    simp only [Option.isNone_none, if_true]
    rw [fetchMissStore, if_neg hne]
    simp only [hp1, hp2, ht]
    rw [fetchFinish]
    simp only [hdl, StockManager.select, jsGet_jsObjectSet_self]
  · exact jsGet_jsObjectSet_self ..

/-- Witness for C9 at the untrimmed requested symbol " DIS" (with a
leading space) and a transport that echoes the NKE quote: the transport is
invoked with the parsed symbol DIS, yet the store is keyed by the
requested " DIS" verbatim and holds the echoed quote. -/
theorem fetch_miss_stores_by_requested_key_witness :
    StockManager.fetch echoTransport StockManager.init " DIS"
      = (.ok (some qNKE),
         { StockManager.init with stocks := jsObjectSet StockManager.init.stocks " DIS" qNKE },
         1)
    ∧ jsGet (jsObjectSet StockManager.init.stocks " DIS" qNKE) " DIS" = some qNKE :=
  fetch_miss_stores_by_requested_key echoTransport StockManager.init " DIS" "DIS" "DIS" qNKE
    rfl rfl rfl (by decide) (by decide) (by decide) rfl

/-- C10: for a comparison result holding exactly one named entry, the
wrap-around pairing of the comparison getter pairs the entry with itself,
so its watcher-count diff is exactly zero. -/
theorem comparison_single_entry_diff_zero (name : String) (e : ManagersResult) :
    (ManagersComparisonResult.comparison ⟨[(name, e)]⟩).map Comparison.watchers
      = .ok [(name, 0)] := by
  simp [ManagersComparisonResult.comparison, ManagersComparisonResult.popular,
    ManagersComparisonResult.differences, popularGo, differencesGo, wrapPick, jsSlice,
    jsObjectSet, List.range_succ, Except.map, Except.bind, bind, pure, Except.pure]

end StockChecker
